import Mathlib

/-!
# Verification of the maiar-ai capability / memory core

Shallow embedding of the repository's capability-execution layer
(`ModelProviderBase`, `LoggingModelDecorator`), plugin registry
(`PluginRegistry`) and conversational memory subsystem (`MemoryService`).

The memory service is embedded as an explicit state-and-trace computation
over an abstract persistence collaborator (`MemoryProvider`), so that the
order in which calls reach the collaborator is a provable artifact.
JavaScript `Map` objects are embedded as association lists with insertion
order and replace-in-place semantics.  Thrown JS errors are embedded as
`Except String` with the thrown error's message.
-/

namespace MaiarSpec

/-! ## JavaScript `Map` model -/

/-- Lookup in a JS `Map` modelled as an association list (`Map.get`). -/
def jsMapGet {α : Type} (m : List (String × α)) (k : String) : Option α :=
  (m.find? (fun q => q.1 == k)).map (fun q => q.2)

/-- Membership test of a JS `Map` (`Map.has`). -/
def jsMapHas {α : Type} (m : List (String × α)) (k : String) : Bool :=
  (m.find? (fun q => q.1 == k)).isSome

/-- Insertion into a JS `Map` (`Map.set`): replaces in place when the key is
present (insertion order preserved), appends otherwise. -/
def jsMapSet {α : Type} (m : List (String × α)) (k : String) (v : α) :
    List (String × α) :=
  if m.any (fun q => q.1 == k) then
    m.map (fun q => if q.1 == k then (k, v) else q)
  else m ++ [(k, v)]

/-- Keys of a JS `Map` in insertion order (`Array.from(m.keys())`). -/
def jsMapKeys {α : Type} (m : List (String × α)) : List String :=
  m.map (fun q => q.1)

/-- Values of a JS `Map` in insertion order (`Array.from(m.values())`). -/
def jsMapValues {α : Type} (m : List (String × α)) : List α :=
  m.map (fun q => q.2)

/-! ## Conversational memory: data model

Modelled from the spec: the record shapes of `packages/core/src/memory/types.ts`
(`Message`, `Context`, `Conversation`, `MemoryQueryOptions`) are not under
`src/`; their fields are taken from §3/§6 of the spec and from how
`memory/service.ts` constructs and consumes them. -/

/-- Message record (`Message` of the memory subsystem).  `role` is a string
(`"user"` or `"assistant"` in the supported flows). -/
structure Message where
  id : String
  role : String
  content : String
  timestamp : Nat
  contextId : Option String := none
  user_message_id : Option String := none
deriving DecidableEq, Repr

/-- Context record (`Context` of the memory subsystem). -/
structure Context where
  id : String
  type : String
  content : String
  timestamp : Nat
deriving DecidableEq, Repr

/-- Conversation record; the service only consumes its identity. -/
structure Conversation where
  id : String
deriving DecidableEq, Repr

/-- Query options passed to `getMessages` (`{conversationId, limit}`). -/
structure MemoryQueryOptions where
  conversationId : String
  limit : Option Nat := none
deriving DecidableEq, Repr

/-- Element of a processing chain (`BaseContextItem`).  Only the `id` field is
consumed by the memory service; `id := none` models a missing (`undefined`)
id and `some ""` an empty one (both falsy in JS). -/
structure BaseContextItem where
  id : Option String := none
deriving DecidableEq, Repr

/-- Triple returned by `getRecentConversationHistory`. -/
structure HistoryEntry where
  role : String
  content : String
  timestamp : Nat
deriving DecidableEq, Repr

/-- Observable step of a memory-service run: either a monitor event
(`MonitorService.publishEvent`, identified by its `type` field) or a call
reaching the persistence collaborator with its arguments. -/
inductive TraceEvent where
  | publish (ty : String)
  | getConversationCall (conversationId : String)
  | createConversationCall (id : Option String)
  | storeMessageCall (message : Message) (conversationId : String)
  | storeContextCall (context : Context) (conversationId : String)
  | getMessagesCall (options : MemoryQueryOptions)
deriving DecidableEq, Repr

/-- True on trace events that persist a context or a message. -/
def TraceEvent.isStoreWrite : TraceEvent → Bool
  | .storeMessageCall _ _ => true
  | .storeContextCall _ _ => true
  | _ => false

/-- True on trace events that are `createConversation` calls. -/
def TraceEvent.isCreateCall : TraceEvent → Bool
  | .createConversationCall _ => true
  | _ => false

/-- Abstract persistence collaborator (the `MemoryProvider` interface), as a
deterministic state machine over an arbitrary state type `σ`.  Each operation
either succeeds with a value or fails with a thrown error message. -/
structure MemoryProvider (σ : Type) where
  getConversation : String → σ → Except String Conversation × σ
  createConversation : Option String → σ → Except String String × σ
  storeMessage : Message → String → σ → Except String Unit × σ
  storeContext : Context → String → σ → Except String Unit × σ
  getMessages : MemoryQueryOptions → σ → Except String (List Message) × σ

/-- Computation of the memory service: threads the collaborator state and
accumulates the observable trace; a `.error` result models a thrown error. -/
def MemM (σ : Type) (α : Type) : Type :=
  σ → Except String α × σ × List TraceEvent

/-- Return a value, no observable step. -/
def MemM.pure {σ α : Type} (a : α) : MemM σ α :=
  fun s => (.ok a, s, [])

/-- Sequential composition (`await` then continue); an error short-circuits. -/
def MemM.bind {σ α β : Type} (x : MemM σ α) (f : α → MemM σ β) : MemM σ β :=
  fun s =>
    match x s with
    | (.ok a, s1, t1) =>
      match f a s1 with
      | (r, s2, t2) => (r, s2, t1 ++ t2)
    | (.error e, s1, t1) => (.error e, s1, t1)

/-- A JS `try { x } catch (e) { h e }` block. -/
def MemM.tryCatch {σ α : Type} (x : MemM σ α) (h : String → MemM σ α) : MemM σ α :=
  fun s =>
    match x s with
    | (.ok a, s1, t1) => (.ok a, s1, t1)
    | (.error e, s1, t1) =>
      match h e s1 with
      | (r, s2, t2) => (r, s2, t1 ++ t2)

/-- A JS `throw new Error(e)`. -/
def MemM.throwErr {σ α : Type} (e : String) : MemM σ α :=
  fun s => (.error e, s, [])

/-- A `MonitorService.publishEvent({type: ty, ...})` call: fire-and-forget,
never fails, recorded in the trace by its event type. -/
def publish {σ : Type} (ty : String) : MemM σ Unit :=
  fun s => (.ok (), s, [.publish ty])

/-- A `provider.getConversation` call reaching the collaborator. -/
def provGetConversation {σ : Type} (P : MemoryProvider σ) (cid : String) :
    MemM σ Conversation :=
  fun s =>
    match P.getConversation cid s with
    | (r, s1) => (r, s1, [.getConversationCall cid])

/-- A `provider.createConversation` call reaching the collaborator. -/
def provCreateConversation {σ : Type} (P : MemoryProvider σ) (oid : Option String) :
    MemM σ String :=
  fun s =>
    match P.createConversation oid s with
    | (r, s1) => (r, s1, [.createConversationCall oid])

/-- A `provider.storeMessage` call reaching the collaborator. -/
def provStoreMessage {σ : Type} (P : MemoryProvider σ) (m : Message) (cid : String) :
    MemM σ Unit :=
  fun s =>
    match P.storeMessage m cid s with
    | (r, s1) => (r, s1, [.storeMessageCall m cid])

/-- A `provider.storeContext` call reaching the collaborator. -/
def provStoreContext {σ : Type} (P : MemoryProvider σ) (c : Context) (cid : String) :
    MemM σ Unit :=
  fun s =>
    match P.storeContext c cid s with
    | (r, s1) => (r, s1, [.storeContextCall c cid])

/-- A `provider.getMessages` call reaching the collaborator. -/
def provGetMessages {σ : Type} (P : MemoryProvider σ) (opts : MemoryQueryOptions) :
    MemM σ (List Message) :=
  fun s =>
    match P.getMessages opts s with
    | (r, s1) => (r, s1, [.getMessagesCall opts])

/-! ## Conversational memory: `MemoryService` operations
(`packages/core/src/memory/service.ts`) -/

/-- `MemoryService.generateConversationId`: the deterministic conversation id
`platform + "-" + user`. -/
def generateConversationId (user platform : String) : String :=
  platform ++ "-" ++ user

/-- `MemoryService.storeMessage`: log a diagnostic event then delegate. -/
def MemoryService.storeMessage {σ : Type} (P : MemoryProvider σ)
    (message : Message) (conversationId : String) : MemM σ Unit :=
  MemM.bind (publish "memory.service.store_message.called") fun _ =>
  provStoreMessage P message conversationId

/-- `MemoryService.storeContext`: log a diagnostic event then delegate. -/
def MemoryService.storeContext {σ : Type} (P : MemoryProvider σ)
    (context : Context) (conversationId : String) : MemM σ Unit :=
  MemM.bind (publish "memory.service.store_context.called") fun _ =>
  provStoreContext P context conversationId

/-- `MemoryService.getMessages`: log a diagnostic event then delegate. -/
def MemoryService.getMessages {σ : Type} (P : MemoryProvider σ)
    (options : MemoryQueryOptions) : MemM σ (List Message) :=
  MemM.bind (publish "memory.service.get_messages.called") fun _ =>
  provGetMessages P options

/-- `MemoryService.getConversation`: log a diagnostic event then delegate. -/
def MemoryService.getConversation {σ : Type} (P : MemoryProvider σ)
    (conversationId : String) : MemM σ Conversation :=
  MemM.bind (publish "memory.service.get_conversation.called") fun _ =>
  provGetConversation P conversationId

/-- `MemoryService.createConversation`: log a diagnostic event then delegate. -/
def MemoryService.createConversation {σ : Type} (P : MemoryProvider σ)
    (oid : Option String) : MemM σ String :=
  MemM.bind (publish "memory.service.create_conversation.called") fun _ =>
  provCreateConversation P oid

/-- `MemoryService.getOrCreateConversation`: compute the deterministic id,
try to fetch it, and on any fetch failure create a conversation with that id;
both branches return the computed id. -/
def MemoryService.getOrCreateConversation {σ : Type} (P : MemoryProvider σ)
    (user platform : String) : MemM σ String :=
  let conversationId := generateConversationId user platform
  MemM.tryCatch
    (MemM.bind (MemoryService.getConversation P conversationId) fun _ =>
     MemM.pure conversationId)
    (fun _ =>
      MemM.bind (MemoryService.createConversation P (some conversationId)) fun _ =>
      MemM.pure conversationId)

/-- Models the JS truthiness test on `contextChain[0]?.id`: returns the first
element's id when the chain is non-empty and that id is present and
non-empty, and `none` otherwise. -/
def chainFirstId (contextChain : List BaseContextItem) : Option String :=
  match contextChain.head? with
  | none => none
  | some item =>
    match item.id with
    | none => none
    | some s => if s = "" then none else some s

/-- Models `JSON.stringify` on one `BaseContextItem` carrying only an `id`. -/
def serializeItem (item : BaseContextItem) : String :=
  match item.id with
  | none => "\x7b\x7d"
  | some s => "\x7b\"id\":\"" ++ s ++ "\"\x7d"

/-- Models `JSON.stringify(contextChain)`: the serialization of the entire
ordered processing chain. -/
def serializeChain (contextChain : List BaseContextItem) : String :=
  "[" ++ String.intercalate "," (contextChain.map serializeItem) ++ "]"

/-- Error message thrown when the processing chain has no resolvable user
message id (the `MissingReferenceError` of the spec's taxonomy). -/
def missingReferenceErrorMsg : String :=
  "No user message ID found in context chain"

/-- The context record built by `storeAssistantInteraction`. -/
def contextRecord (user platform : String) (contextChain : List BaseContextItem)
    (now : Nat) : Context :=
  { id := generateConversationId user platform ++ "-context-" ++ toString now
    type := "context_chain"
    content := serializeChain contextChain
    timestamp := now }

/-- The assistant message record built by `storeAssistantInteraction`;
`fid` is the first chain element's id. -/
def assistantMessageRecord (user platform response : String) (now : Nat)
    (fid : String) : Message :=
  { id := generateConversationId user platform ++ "-assistant-" ++ toString now
    role := "assistant"
    content := response
    timestamp := now
    contextId := some (generateConversationId user platform ++ "-context-" ++ toString now)
    user_message_id := some fid }

/-- `MemoryService.storeAssistantInteraction`.  `now` is the value of
`Date.now()` observed inside the call.  Mirrors the source order: resolve or
create the conversation, read the first chain element, throw when its id is
falsy, store the context chain, then store the assistant message; the
surrounding `catch` logs a failure event and re-throws the original error. -/
def MemoryService.storeAssistantInteraction {σ : Type} (P : MemoryProvider σ)
    (user platform response : String) (contextChain : List BaseContextItem)
    (now : Nat) : MemM σ Unit :=
  MemM.tryCatch
    (MemM.bind (publish "memory.assistant.interaction.storing") fun _ =>
     MemM.bind (MemoryService.getOrCreateConversation P user platform) fun conversationId =>
     MemM.bind (publish "memory.conversation.retrieved") fun _ =>
     MemM.bind (publish "memory.context.chain.processing") fun _ =>
     match chainFirstId contextChain with
     | none => MemM.throwErr missingReferenceErrorMsg
     | some userMessageId =>
       MemM.bind (publish "memory.message.id.extracted") fun _ =>
       MemM.bind (MemoryService.storeContext P
         { id := conversationId ++ "-context-" ++ toString now
           type := "context_chain"
           content := serializeChain contextChain
           timestamp := now } conversationId) fun _ =>
       MemM.bind (publish "memory.context.stored") fun _ =>
       MemM.bind (MemoryService.storeMessage P
         { id := conversationId ++ "-assistant-" ++ toString now
           role := "assistant"
           content := response
           timestamp := now
           contextId := some (conversationId ++ "-context-" ++ toString now)
           user_message_id := some userMessageId } conversationId) fun _ =>
       publish "memory.assistant.interaction.completed")
    (fun e =>
      MemM.bind (publish "memory.assistant.interaction.failed") fun _ =>
      MemM.throwErr e)

/-- `MemoryService.getRecentConversationHistory` with an explicit `limit`
argument: bounded read mapped to `{role, content, timestamp}` triples; the
surrounding `catch` logs the failure and returns the empty sequence. -/
def MemoryService.getRecentConversationHistory {σ : Type} (P : MemoryProvider σ)
    (user platform : String) (limit : Nat) : MemM σ (List HistoryEntry) :=
  MemM.tryCatch
    (let conversationId := generateConversationId user platform
     MemM.bind (MemoryService.getMessages P
       { conversationId := conversationId, limit := some limit }) fun messages =>
     MemM.pure (messages.map fun m =>
       { role := m.role, content := m.content, timestamp := m.timestamp }))
    (fun _ =>
      MemM.bind (publish "memory.conversation.history.failed") fun _ =>
      MemM.pure [])

/-- The call with the `limit` parameter omitted: its declared default is 100. -/
def MemoryService.getRecentConversationHistoryDefault {σ : Type}
    (P : MemoryProvider σ) (user platform : String) : MemM σ (List HistoryEntry) :=
  MemoryService.getRecentConversationHistory P user platform 100

/-! ## A reference in-memory persistence collaborator, used to instantiate
the environment in witnesses. -/

/-- State of the reference in-memory persistence collaborator. -/
structure Store where
  conversations : List String := []
  messages : List (Message × String) := []
  contexts : List (Context × String) := []
deriving DecidableEq, Repr

/-- Reference in-memory persistence collaborator: fetch fails precisely when
the conversation id is absent, creation and stores append. -/
def inMemoryProvider : MemoryProvider Store where
  getConversation := fun cid s =>
    if s.conversations.contains cid then (.ok { id := cid }, s)
    else (.error ("Conversation not found: " ++ cid), s)
  createConversation := fun oid s =>
    let cid := oid.getD "generated-id"
    (.ok cid, { s with conversations := s.conversations ++ [cid] })
  storeMessage := fun m cid s =>
    (.ok (), { s with messages := s.messages ++ [(m, cid)] })
  storeContext := fun c cid s =>
    (.ok (), { s with contexts := s.contexts ++ [(c, cid)] })
  getMessages := fun opts s =>
    (.ok (((s.messages.filter (fun q => q.2 == opts.conversationId)).map
      (fun q => q.1)).take (opts.limit.getD 100)), s)

/-- A persistence collaborator whose every operation fails; instantiates the
failing environment in witnesses. -/
def failingProvider (msg : String) : MemoryProvider Unit where
  getConversation := fun _ s => (.error msg, s)
  createConversation := fun _ s => (.error msg, s)
  storeMessage := fun _ _ s => (.error msg, s)
  storeContext := fun _ _ s => (.error msg, s)
  getMessages := fun _ s => (.error msg, s)

/-! ## Statement vocabulary for the memory claims -/

/-- No `storeContext` and no `storeMessage` call occurs in the trace. -/
def NoStoreWrites (t : List TraceEvent) : Prop :=
  ∀ e ∈ t, e.isStoreWrite = false

/-- Number of `createConversation` calls reaching the collaborator. -/
def createCallCount (t : List TraceEvent) : Nat :=
  (t.filter TraceEvent.isCreateCall).length

/-- Some context write occurs strictly before some message write, and the
written message's `contextId` equals the written context's id. -/
def ContextBeforeMessage (t : List TraceEvent) : Prop :=
  ∃ cid ctx msg t1 t2 t3,
    t = t1 ++ TraceEvent.storeContextCall ctx cid ::
      (t2 ++ TraceEvent.storeMessageCall msg cid :: t3) ∧
    msg.contextId = some ctx.id

/-- The exact context and message records of a successful
`storeAssistantInteraction` occur in the trace, context first. -/
def StoresExactRecords (user platform response : String)
    (contextChain : List BaseContextItem) (now : Nat) (fid : String)
    (t : List TraceEvent) : Prop :=
  ∃ t1 t2 t3,
    t = t1 ++
      TraceEvent.storeContextCall (contextRecord user platform contextChain now)
        (generateConversationId user platform) ::
      (t2 ++
       TraceEvent.storeMessageCall
         (assistantMessageRecord user platform response now fid)
         (generateConversationId user platform) :: t3)

/-- Well-behaved persistence collaborator for conversation identity `cid`:
a fetched conversation carries the requested id, a successful fetch stays
fetchable, and a successfully created conversation becomes fetchable. -/
def GoodStore {σ : Type} (P : MemoryProvider σ) (cid : String) : Prop :=
  (∀ s c s2, P.getConversation cid s = (.ok c, s2) → c.id = cid) ∧
  (∀ s c s2, P.getConversation cid s = (.ok c, s2) →
    ∃ c2 s3, P.getConversation cid s2 = (.ok c2, s3)) ∧
  (∀ s x s2, P.createConversation (some cid) s = (.ok x, s2) →
    ∃ c2 s3, P.getConversation cid s2 = (.ok c2, s3))

/-- Behaviour claimed of `getOrCreateConversation` at provider `P` and state
`s`: any successful result is the deterministic id `platform-user`; when the
fetch succeeds the fetched conversation's id is returned and no create call
is issued; when the fetch fails a create call with the deterministic id
reaches the collaborator and, if creation succeeds, that id is returned; and
after a successful invocation a second (sequential) invocation returns the
identical id with at most one create call across both runs. -/
def GetOrCreateSpec {σ : Type} (P : MemoryProvider σ) (s : σ)
    (user platform : String) : Prop :=
  (∀ i s1 tg,
    MemoryService.getOrCreateConversation P user platform s = (.ok i, s1, tg) →
    i = generateConversationId user platform) ∧
  (∀ c s1, P.getConversation (generateConversationId user platform) s = (.ok c, s1) →
    (MemoryService.getOrCreateConversation P user platform s).1 = .ok c.id ∧
    createCallCount (MemoryService.getOrCreateConversation P user platform s).2.2 = 0) ∧
  (∀ e s1, P.getConversation (generateConversationId user platform) s = (.error e, s1) →
    TraceEvent.createConversationCall (some (generateConversationId user platform)) ∈
      (MemoryService.getOrCreateConversation P user platform s).2.2 ∧
    (∀ x s2,
      P.createConversation (some (generateConversationId user platform)) s1 = (.ok x, s2) →
      (MemoryService.getOrCreateConversation P user platform s).1 =
        .ok (generateConversationId user platform))) ∧
  (∀ i, (MemoryService.getOrCreateConversation P user platform s).1 = .ok i →
    (MemoryService.getOrCreateConversation P user platform
      (MemoryService.getOrCreateConversation P user platform s).2.1).1 = .ok i ∧
    createCallCount (MemoryService.getOrCreateConversation P user platform s).2.2 +
      createCallCount (MemoryService.getOrCreateConversation P user platform
        (MemoryService.getOrCreateConversation P user platform s).2.1).2.2 ≤ 1)

/-! ## Model providers and the instrumentation wrapper
(`packages/core/src/models/base.ts`, embedded in the client bundle) -/

/-- Configuration for model requests (`ModelRequestConfig`).  The layer only
passes these values through, so the numeric carrier type is immaterial. -/
structure ModelRequestConfig where
  temperature : Option Nat := none
  maxTokens : Option Nat := none
  stopSequences : Option (List String) := none
deriving DecidableEq, Repr

/-- Monitor events emitted around capability execution, identified by their
event type and the metadata fields the source attaches. -/
inductive MEvent where
  | prompt (model capability input : String) (config : Option ModelRequestConfig)
  | response (model capability resp : String) (config : Option ModelRequestConfig)
  | errorEvt (model capability errMsg input : String)
deriving DecidableEq, Repr

/-- True on `model.capability.prompt` (begin) events. -/
def MEvent.isBegin : MEvent → Bool
  | .prompt _ _ _ _ => true
  | _ => false

/-- True on terminal (`model.capability.response` or `model.capability.error`)
events. -/
def MEvent.isTerminal : MEvent → Bool
  | .response _ _ _ _ => true
  | .errorEvt _ _ _ _ => true
  | _ => false

/-- Number of begin events in a trace. -/
def beginCount (t : List MEvent) : Nat :=
  (t.filter MEvent.isBegin).length

/-- Number of terminal events in a trace. -/
def terminalCount (t : List MEvent) : Nat :=
  (t.filter MEvent.isTerminal).length

/-- A model capability (`ModelCapability`): identity, typed input/output
descriptors, and an execution function.  Execution either succeeds with an
output or fails with a thrown error message, and may emit monitor events;
payloads are type-erased at this layer (dispatch is by id string only). -/
structure ModelCapability where
  id : String
  name : String
  description : String
  input : String := ""
  output : String := ""
  execute : String → Option ModelRequestConfig → Except String String × List MEvent

/-- A model provider (`ModelProviderBase`): identity plus a capability table
with JS `Map` semantics. -/
structure ModelProviderBase where
  id : String
  name : String
  description : String
  capabilities : List (String × ModelCapability) := []

/-- `ModelProviderBase.addCapability`: insert or replace by the capability's
own id. -/
def ModelProviderBase.addCapability (p : ModelProviderBase)
    (capability : ModelCapability) : ModelProviderBase :=
  { p with capabilities := jsMapSet p.capabilities capability.id capability }

/-- `ModelProviderBase.getCapability`. -/
def ModelProviderBase.getCapability (p : ModelProviderBase)
    (capabilityId : String) : Option ModelCapability :=
  jsMapGet p.capabilities capabilityId

/-- `ModelProviderBase.getCapabilities`: the table's values in insertion
order. -/
def ModelProviderBase.getCapabilities (p : ModelProviderBase) :
    List ModelCapability :=
  jsMapValues p.capabilities

/-- `ModelProviderBase.hasCapability`. -/
def ModelProviderBase.hasCapability (p : ModelProviderBase)
    (capabilityId : String) : Bool :=
  jsMapHas p.capabilities capabilityId

/-- The `NotFoundError` diagnostic of `executeCapability`. -/
def capabilityNotFoundMsg (capabilityId providerId : String) : String :=
  "Capability " ++ capabilityId ++ " not found on model " ++ providerId

/-- `ModelProviderBase.executeCapability`: look the capability up; throw the
not-found diagnostic when absent; otherwise invoke its execution function and
return the result unchanged. -/
def ModelProviderBase.executeCapability (p : ModelProviderBase)
    (capabilityId input : String) (config : Option ModelRequestConfig) :
    Except String String × List MEvent :=
  match jsMapGet p.capabilities capabilityId with
  | none => (.error (capabilityNotFoundMsg capabilityId p.id), [])
  | some capability => capability.execute input config

/-- The decorated capability built inside the `LoggingModelDecorator`
constructor: same identity and type descriptors; execution emits a prompt
event, runs the original execution function, then emits a response event on
success (returning the response unchanged) or an error event on failure
(re-throwing the original error unchanged). -/
def decorateCapability (modelId : String) (capability : ModelCapability) :
    ModelCapability :=
  { id := capability.id
    name := capability.name
    description := capability.description
    input := capability.input
    output := capability.output
    execute := fun input config =>
      match capability.execute input config with
      | (.ok r, evs) =>
        (.ok r, MEvent.prompt modelId capability.id input config ::
          (evs ++ [MEvent.response modelId capability.id r config]))
      | (.error e, evs) =>
        (.error e, MEvent.prompt modelId capability.id input config ::
          (evs ++ [MEvent.errorEvt modelId capability.id e input])) }

/-- `LoggingModelDecorator` construction: same id, name and description as
the wrapped provider; a fresh capability table populated once, at wrap time,
with a decorated copy of each of the underlying provider's current
capabilities. -/
def loggingModelDecorator (m : ModelProviderBase) : ModelProviderBase :=
  (m.getCapabilities).foldl
    (fun p c => p.addCapability (decorateCapability m.id c))
    { id := m.id, name := m.name, description := m.description, capabilities := [] }

/-- Well-formed provider: every table entry is keyed by its capability's own
id and keys are distinct (the invariant `addCapability` maintains from an
empty table). -/
def WFProvider (m : ModelProviderBase) : Prop :=
  (∀ q ∈ m.capabilities, q.1 = q.2.id) ∧ (jsMapKeys m.capabilities).Nodup

/-! ## Plugin identity registry (`packages/core/src/registry/index.ts`,
embedded in the client bundle) -/

/-- A plugin identity as consumed by the registry. -/
structure Plugin where
  id : String
  name : String
  description : String
deriving DecidableEq, Repr

/-- The plugin registry: a JS `Map` from plugin id to plugin. -/
structure PluginRegistry where
  plugins : List (String × Plugin) := []
deriving DecidableEq, Repr

/-- Models `String.prototype.startsWith` on the character sequences of the
two strings (semantically the prefix test the source performs). -/
def jsStartsWith (s p : String) : Bool :=
  p.data.isPrefixOf s.data

/-- `PluginRegistry.validatePluginId`: empty ids and ids that do not start
with `"plugin-"` are rejected with the source's diagnostics.  The dynamic
`typeof id !== "string"` branch is unreachable in the typed embedding. -/
def validatePluginId (id : String) : Except String Unit :=
  if id = "" then .error "Plugin ID cannot be empty"
  else if !(jsStartsWith id "plugin-") then
    .error "Plugin ID must start with \"plugin-\""
  else .ok ()

/-- The `CollisionError` diagnostic of `PluginRegistry.register`, enumerating
the currently registered ids. -/
def collisionMessage (id : String) (existing : List String) : String :=
  "Plugin ID collision: " ++ id ++ " is already registered.\n" ++
  "Currently registered plugins: " ++ String.intercalate ", " existing

/-- `PluginRegistry.register`: reject a null/undefined plugin (modelled as
`none`), validate the id, reject a duplicate id with the collision
diagnostic, otherwise insert. -/
def PluginRegistry.register (reg : PluginRegistry) (pluginOpt : Option Plugin) :
    Except String PluginRegistry :=
  match pluginOpt with
  | none => .error "Cannot register null or undefined plugin"
  | some plugin =>
    match validatePluginId plugin.id with
    | .error e => .error e
    | .ok _ =>
      if jsMapHas reg.plugins plugin.id then
        .error (collisionMessage plugin.id (jsMapKeys reg.plugins))
      else
        .ok { plugins := jsMapSet reg.plugins plugin.id plugin }

/-- `PluginRegistry.getPlugin`: lookup by id; `none` models the `undefined`
return (the source additionally logs a warning, which carries no state). -/
def PluginRegistry.getPlugin (reg : PluginRegistry) (id : String) :
    Option Plugin :=
  jsMapGet reg.plugins id

/-- `PluginRegistry.getAllPlugins`. -/
def PluginRegistry.getAllPlugins (reg : PluginRegistry) : List Plugin :=
  jsMapValues reg.plugins

/-! ## Concrete instantiations used by the witnesses -/

/-- A capability that succeeds, echoing its input. -/
def echoCapability : ModelCapability :=
  { id := "text-generation"
    name := "Echo"
    description := "echoes its input"
    input := "string"
    output := "string"
    execute := fun input _ => (.ok ("echo: " ++ input), []) }

/-- A capability that always fails. -/
def throwingCapability : ModelCapability :=
  { id := "image-generation"
    name := "Thrower"
    description := "always fails"
    input := "string"
    output := "string"
    execute := fun _ _ => (.error "inner failure", []) }

/-- A capability absent from the sample provider at wrap time. -/
def lateCapability : ModelCapability :=
  { id := "embedding"
    name := "Late"
    description := "added after wrapping"
    input := "string"
    output := "vector"
    execute := fun _ _ => (.ok "[]", []) }

/-- A sample provider holding the echoing and the failing capability. -/
def sampleProvider : ModelProviderBase :=
  (ModelProviderBase.addCapability
    (ModelProviderBase.addCapability
      { id := "openai", name := "OpenAI", description := "sample provider" }
      echoCapability)
    throwingCapability)

/-- A sample plugin with a valid id. -/
def characterPlugin : Plugin :=
  { id := "plugin-character"
    name := "Character"
    description := "Handles character related context injection for the agent" }

/-- A second plugin colliding with `characterPlugin` on id. -/
def characterPluginClone : Plugin :=
  { id := "plugin-character"
    name := "Character (clone)"
    description := "colliding registration" }

/-- The empty store of the reference collaborator. -/
def store0 : Store := {}

/-- A store already holding the `"web-alice"` conversation. -/
def storeWithAlice : Store := { conversations := ["web-alice"] }

/-- The sample processing chain whose first element carries id `"web-1000"`. -/
def sampleChain : List BaseContextItem :=
  [{ id := some "web-1000" }]

/-! ## Helper lemmas on the JS `Map` model -/

theorem jsMapHas_eq_any {α : Type} (m : List (String × α)) (k : String) :
    jsMapHas m k = m.any (fun q => q.1 == k) := by
  induction m with
  | nil => rfl
  | cons q l ih =>
    simp only [jsMapHas, List.find?, List.any] at *
    cases h : q.1 == k <;> simp [h, ih]

theorem jsMapSet_of_not_has {α : Type} {m : List (String × α)} {k : String}
    (v : α) (h : jsMapHas m k = false) : jsMapSet m k v = m ++ [(k, v)] := by
  rw [jsMapHas_eq_any] at h
  simp [jsMapSet, h]

theorem jsMapHas_append {α : Type} (m1 m2 : List (String × α)) (k : String) :
    jsMapHas (m1 ++ m2) k = (jsMapHas m1 k || jsMapHas m2 k) := by
  induction m1 with
  | nil => simp [jsMapHas]
  | cons q l ih =>
    simp only [jsMapHas, List.cons_append, List.find?] at *
    cases h : q.1 == k <;> simp [h, ih, jsMapHas]

theorem jsMapGet_append_right {α : Type} {m1 : List (String × α)} {k : String}
    (m2 : List (String × α)) (h : jsMapHas m1 k = false) :
    jsMapGet (m1 ++ m2) k = jsMapGet m2 k := by
  induction m1 with
  | nil => rfl
  | cons q l ih =>
    simp only [jsMapHas, List.find?] at h
    cases hq : q.1 == k
    · simp only [jsMapGet, List.cons_append, List.find?, hq]
      exact ih (by simpa [jsMapHas, hq] using h)
    · simp [jsMapHas, hq] at h

theorem jsMapGet_singleton_self {α : Type} (k : String) (v : α) :
    jsMapGet [(k, v)] k = some v := by
  simp [jsMapGet, List.find?]

theorem jsMapGet_map_keyed {α β : Type} (l : List (String × α))
    (g : α → β) (k : String) :
    jsMapGet (l.map (fun q => (q.1, g q.2))) k = (jsMapGet l k).map g := by
  simp only [jsMapGet, List.find?_map, Option.map_map]
  rfl

theorem jsMapHas_map_keyed {α β : Type} (l : List (String × α))
    (g : α → β) (k : String) :
    jsMapHas (l.map (fun q => (q.1, g q.2))) k = jsMapHas l k := by
  have hp : ((fun q : String × β => q.1 == k) ∘ fun q : String × α => (q.1, g q.2)) =
      (fun q : String × α => q.1 == k) := rfl
  simp only [jsMapHas, List.find?_map, hp]
  cases l.find? (fun q => q.1 == k) <;> simp

/-! ## C5: capability dispatch on `ModelProviderBase` -/

/-- C5.  `executeCapability` fails with the not-found diagnostic — which
contains both the provider id and the capability id — exactly when the id is
absent from the provider's capability table, and otherwise invokes that
capability's execution function on the given input and config and returns
its result unchanged. -/
theorem executeCapability_dispatch (p : ModelProviderBase)
    (capabilityId input : String) (config : Option ModelRequestConfig) :
    (p.getCapability capabilityId = none →
      p.executeCapability capabilityId input config =
        (.error (capabilityNotFoundMsg capabilityId p.id), []) ∧
      ∃ x y z, capabilityNotFoundMsg capabilityId p.id =
        x ++ capabilityId ++ y ++ p.id ++ z) ∧
    (∀ c, p.getCapability capabilityId = some c →
      p.executeCapability capabilityId input config = c.execute input config) := by
  constructor
  · intro h
    refine ⟨?_, "Capability ", " not found on model ", "", ?_⟩
    · simp only [ModelProviderBase.getCapability] at h
      simp [ModelProviderBase.executeCapability, h]
    · simp [capabilityNotFoundMsg]
  · intro c h
    simp only [ModelProviderBase.getCapability] at h
    simp [ModelProviderBase.executeCapability, h]

/-- Witness for C5 on the sample provider: the absent id
`"text-embedding"` yields the not-found error naming provider and
capability, and the present id dispatches to the echo capability. -/
theorem executeCapability_dispatch_witness :
    sampleProvider.executeCapability "text-embedding" "in" none =
      (.error (capabilityNotFoundMsg "text-embedding" "openai"), []) ∧
    sampleProvider.executeCapability "text-generation" "hi" none =
      echoCapability.execute "hi" none :=
  ⟨((executeCapability_dispatch sampleProvider "text-embedding" "in" none).1
      rfl).1,
   (executeCapability_dispatch sampleProvider "text-generation" "hi" none).2
      echoCapability rfl⟩

/-! ## C8: plugin registry register / getPlugin round trip -/

/-- C8.  For a plugin with a non-empty id beginning with `"plugin-"` that is
not yet registered, `register` succeeds and `getPlugin` returns that same
plugin; a second `register` with the same id fails with the collision
diagnostic enumerating all currently registered ids, and the originally
registered entry is still returned by `getPlugin` afterwards. -/
theorem register_then_getPlugin_roundtrip (reg : PluginRegistry) (p q : Plugin)
    (hne : ¬ p.id = "") (hpre : jsStartsWith p.id "plugin-" = true)
    (hfresh : jsMapHas reg.plugins p.id = false) (hq : q.id = p.id) :
    ∃ reg1, reg.register (some p) = .ok reg1 ∧
      reg1.getPlugin p.id = some p ∧
      reg1.register (some q) =
        .error (collisionMessage p.id (jsMapKeys reg1.plugins)) ∧
      reg1.getPlugin p.id = some p := by
  have hval : validatePluginId p.id = .ok () := by
    simp [validatePluginId, hne, hpre]
  have hset : jsMapSet reg.plugins p.id p = reg.plugins ++ [(p.id, p)] :=
    jsMapSet_of_not_has p hfresh
  refine ⟨{ plugins := reg.plugins ++ [(p.id, p)] }, ?_, ?_, ?_, ?_⟩
  · simp [PluginRegistry.register, hval, hfresh, hset]
  · simp [PluginRegistry.getPlugin, jsMapGet_append_right _ hfresh,
      jsMapGet_singleton_self]
  · have hhas : jsMapHas (reg.plugins ++ [(p.id, p)]) p.id = true := by
      rw [jsMapHas_append]
      simp [jsMapHas, List.find?]
    simp [PluginRegistry.register, hq, hval, hhas]
  · simp [PluginRegistry.getPlugin, jsMapGet_append_right _ hfresh,
      jsMapGet_singleton_self]

/-- Witness for C8: registering the character plugin in the empty registry,
then registering a clone with the same id. -/
theorem register_then_getPlugin_roundtrip_witness :
    (¬ characterPlugin.id = "") ∧
    jsStartsWith characterPlugin.id "plugin-" = true ∧
    jsMapHas (PluginRegistry.plugins {}) characterPlugin.id = false ∧
    characterPluginClone.id = characterPlugin.id ∧
    ∃ reg1, PluginRegistry.register {} (some characterPlugin) = .ok reg1 ∧
      reg1.getPlugin characterPlugin.id = some characterPlugin ∧
      reg1.register (some characterPluginClone) =
        .error (collisionMessage characterPlugin.id (jsMapKeys reg1.plugins)) ∧
      reg1.getPlugin characterPlugin.id = some characterPlugin :=
  ⟨by decide, by decide, by decide, by decide,
   register_then_getPlugin_roundtrip {} characterPlugin characterPluginClone
     (by decide) (by decide) (by decide) (by decide)⟩

/-! ## Helper lemmas on the instrumentation wrapper -/

theorem decorateCapability_id (mid : String) (c : ModelCapability) :
    (decorateCapability mid c).id = c.id := rfl

theorem foldl_addCapability_id (mid : String) (l : List (String × ModelCapability))
    (acc : ModelProviderBase) :
    (l.foldl (fun p q => p.addCapability (decorateCapability mid q.2)) acc).id
      = acc.id := by
  induction l generalizing acc with
  | nil => rfl
  | cons q tl ih => exact ih _

theorem foldl_addCapability_name (mid : String) (l : List (String × ModelCapability))
    (acc : ModelProviderBase) :
    (l.foldl (fun p q => p.addCapability (decorateCapability mid q.2)) acc).name
      = acc.name := by
  induction l generalizing acc with
  | nil => rfl
  | cons q tl ih => exact ih _

theorem foldl_addCapability_description (mid : String)
    (l : List (String × ModelCapability)) (acc : ModelProviderBase) :
    (l.foldl (fun p q => p.addCapability (decorateCapability mid q.2)) acc).description
      = acc.description := by
  induction l generalizing acc with
  | nil => rfl
  | cons q tl ih => exact ih _

theorem foldl_addCapability_capabilities (mid : String)
    (l : List (String × ModelCapability)) (acc : ModelProviderBase)
    (hids : ∀ q ∈ l, q.1 = q.2.id)
    (hfresh : ∀ q ∈ l, jsMapHas acc.capabilities q.1 = false)
    (hnd : (l.map (fun q => q.1)).Nodup) :
    (l.foldl (fun p q => p.addCapability (decorateCapability mid q.2)) acc).capabilities
      = acc.capabilities ++ l.map (fun q => (q.1, decorateCapability mid q.2)) := by
  induction l generalizing acc with
  | nil => simp
  | cons q tl ih =>
    have hid : q.1 = q.2.id := hids q (by simp)
    have hf : jsMapHas acc.capabilities q.2.id = false := by
      rw [← hid]; exact hfresh q (by simp)
    have hstep : (acc.addCapability (decorateCapability mid q.2)).capabilities
        = acc.capabilities ++ [(q.1, decorateCapability mid q.2)] := by
      simp only [ModelProviderBase.addCapability, decorateCapability_id]
      rw [jsMapSet_of_not_has _ hf, hid]
    have hnd2 : (q.1 :: tl.map (fun r => r.1)).Nodup := by
      simpa only [List.map_cons] using hnd
    have hnd' : (tl.map (fun r => r.1)).Nodup := hnd2.of_cons
    have hnotmem : q.1 ∉ tl.map (fun r => r.1) := (List.nodup_cons.mp hnd2).1
    have hfresh' : ∀ p ∈ tl,
        jsMapHas (acc.capabilities ++ [(q.1, decorateCapability mid q.2)]) p.1 = false := by
      intro p hp
      rw [jsMapHas_append]
      have h1 : jsMapHas acc.capabilities p.1 = false := hfresh p (by simp [hp])
      have hne : (q.1 == p.1) = false := by
        have hqp : q.1 ≠ p.1 := by
          intro hcontra
          exact hnotmem (by
            rw [hcontra]
            exact List.mem_map_of_mem _ hp)
        exact beq_eq_false_iff_ne.mpr hqp
      rw [h1]
      simp [jsMapHas, List.find?, hne]
    have := ih (acc.addCapability (decorateCapability mid q.2))
      (fun p hp => hids p (by simp [hp])) (by rw [hstep]; exact hfresh') hnd'
    simp only [List.foldl_cons, this, hstep, List.map_cons]
    simp

theorem loggingModelDecorator_id (m : ModelProviderBase) :
    (loggingModelDecorator m).id = m.id := by
  unfold loggingModelDecorator ModelProviderBase.getCapabilities jsMapValues
  rw [List.foldl_map]
  exact foldl_addCapability_id m.id m.capabilities _

theorem loggingModelDecorator_name (m : ModelProviderBase) :
    (loggingModelDecorator m).name = m.name := by
  unfold loggingModelDecorator ModelProviderBase.getCapabilities jsMapValues
  rw [List.foldl_map]
  exact foldl_addCapability_name m.id m.capabilities _

theorem loggingModelDecorator_description (m : ModelProviderBase) :
    (loggingModelDecorator m).description = m.description := by
  unfold loggingModelDecorator ModelProviderBase.getCapabilities jsMapValues
  rw [List.foldl_map]
  exact foldl_addCapability_description m.id m.capabilities _

theorem loggingModelDecorator_capabilities (m : ModelProviderBase)
    (hwf : WFProvider m) :
    (loggingModelDecorator m).capabilities =
      m.capabilities.map (fun q => (q.1, decorateCapability m.id q.2)) := by
  unfold loggingModelDecorator ModelProviderBase.getCapabilities jsMapValues
  rw [List.foldl_map]
  rw [foldl_addCapability_capabilities m.id m.capabilities _ hwf.1
    (fun q _ => by simp [jsMapHas, List.find?]) hwf.2]
  simp

theorem loggingModelDecorator_getCapability (m : ModelProviderBase)
    (hwf : WFProvider m) (capabilityId : String) :
    (loggingModelDecorator m).getCapability capabilityId =
      (m.getCapability capabilityId).map (decorateCapability m.id) := by
  unfold ModelProviderBase.getCapability
  rw [loggingModelDecorator_capabilities m hwf, jsMapGet_map_keyed]

theorem jsMapGet_eq_none_of_not_has {α : Type} {m : List (String × α)}
    {k : String} (h : jsMapHas m k = false) : jsMapGet m k = none := by
  unfold jsMapHas at h
  unfold jsMapGet
  cases hf : m.find? (fun q => q.1 == k) with
  | none => rfl
  | some q => rw [hf] at h; simp at h

/-! ## C6: instrumentation wrapper event envelope and passthrough -/

/-- C6.  Executing a wrapped capability through the instrumentation wrapper
adds exactly one begin event before the underlying execution's events and
exactly one terminal event after them — a response event on success, an
error event on failure — and returns the underlying result unchanged: the
response on success, the original error message on failure.  When the inner
execution emits no events, the call emits exactly one begin and exactly one
terminal event in total. -/
theorem loggingDecorator_events (m : ModelProviderBase) (hwf : WFProvider m)
    (capabilityId input : String) (config : Option ModelRequestConfig)
    (c : ModelCapability) (hc : m.getCapability capabilityId = some c)
    (res : Except String String) (evs : List MEvent)
    (hexec : c.execute input config = (res, evs)) :
    ((loggingModelDecorator m).executeCapability capabilityId input config).1 = res ∧
    ((loggingModelDecorator m).executeCapability capabilityId input config).2 =
      MEvent.prompt m.id c.id input config ::
        (evs ++ [match res with
                 | .ok r => MEvent.response m.id c.id r config
                 | .error e => MEvent.errorEvt m.id c.id e input]) ∧
    beginCount ((loggingModelDecorator m).executeCapability capabilityId input config).2 =
      beginCount evs + 1 ∧
    terminalCount ((loggingModelDecorator m).executeCapability capabilityId input config).2 =
      terminalCount evs + 1 ∧
    (evs = [] →
      beginCount ((loggingModelDecorator m).executeCapability capabilityId input config).2 = 1 ∧
      terminalCount ((loggingModelDecorator m).executeCapability capabilityId input config).2 = 1) := by
  have hget := loggingModelDecorator_getCapability m hwf capabilityId
  rw [hc] at hget
  have hrun : (loggingModelDecorator m).executeCapability capabilityId input config =
      (decorateCapability m.id c).execute input config := by
    unfold ModelProviderBase.executeCapability
    unfold ModelProviderBase.getCapability at hget
    rw [hget]
    rfl
  have h0 : (decorateCapability m.id c).execute input config =
      match c.execute input config with
      | (.ok r2, evs2) =>
        (.ok r2, MEvent.prompt m.id c.id input config ::
          (evs2 ++ [MEvent.response m.id c.id r2 config]))
      | (.error e2, evs2) =>
        (.error e2, MEvent.prompt m.id c.id input config ::
          (evs2 ++ [MEvent.errorEvt m.id c.id e2 input])) := rfl
  rw [hrun, h0, hexec]
  cases res with
  | ok r =>
    refine ⟨rfl, rfl, ?_, ?_, ?_⟩
    · simp [beginCount, List.filter_append, MEvent.isBegin]
    · simp [terminalCount, List.filter_append, MEvent.isTerminal]
    · intro h
      subst h
      simp [beginCount, terminalCount, MEvent.isBegin, MEvent.isTerminal]
  | error e =>
    refine ⟨rfl, rfl, ?_, ?_, ?_⟩
    · simp [beginCount, List.filter_append, MEvent.isBegin]
    · simp [terminalCount, List.filter_append, MEvent.isTerminal]
    · intro h
      subst h
      simp [beginCount, terminalCount, MEvent.isBegin, MEvent.isTerminal]

/-- Witness for C6: the sample provider's echo capability executed through
the wrapper at input `"hi"`. -/
theorem loggingDecorator_events_witness :
    WFProvider sampleProvider ∧
    sampleProvider.getCapability "text-generation" = some echoCapability ∧
    echoCapability.execute "hi" none = (.ok "echo: hi", []) ∧
    (((loggingModelDecorator sampleProvider).executeCapability "text-generation" "hi" none).1 =
      .ok "echo: hi" ∧
     ((loggingModelDecorator sampleProvider).executeCapability "text-generation" "hi" none).2 =
      MEvent.prompt "openai" "text-generation" "hi" none ::
        ([] ++ [MEvent.response "openai" "text-generation" "echo: hi" none]) ∧
     beginCount ((loggingModelDecorator sampleProvider).executeCapability "text-generation" "hi" none).2 =
      beginCount [] + 1 ∧
     terminalCount ((loggingModelDecorator sampleProvider).executeCapability "text-generation" "hi" none).2 =
      terminalCount [] + 1 ∧
     (([] : List MEvent) = [] →
      beginCount ((loggingModelDecorator sampleProvider).executeCapability "text-generation" "hi" none).2 = 1 ∧
      terminalCount ((loggingModelDecorator sampleProvider).executeCapability "text-generation" "hi" none).2 = 1)) :=
  ⟨⟨by decide, by decide⟩, rfl, rfl,
   loggingDecorator_events sampleProvider ⟨by decide, by decide⟩
     "text-generation" "hi" none echoCapability rfl (.ok "echo: hi") [] rfl⟩

/-! ## C7: snapshot-at-wrap-time capability visibility -/

/-- C7.  The wrapper keeps the wrapped provider's id, name and description
and snapshots its capability table at wrap time: its key set is the
underlying key set at wrap time, and a capability the underlying provider
acquires only after wrapping (absent at wrap time) is neither visible nor
executable through the wrapper, although it is visible on the updated
underlying provider. -/
theorem loggingDecorator_snapshot (m : ModelProviderBase) (hwf : WFProvider m)
    (c : ModelCapability) (hnotin : m.hasCapability c.id = false)
    (input : String) (config : Option ModelRequestConfig) :
    (loggingModelDecorator m).id = m.id ∧
    (loggingModelDecorator m).name = m.name ∧
    (loggingModelDecorator m).description = m.description ∧
    jsMapKeys (loggingModelDecorator m).capabilities = jsMapKeys m.capabilities ∧
    (m.addCapability c).hasCapability c.id = true ∧
    (loggingModelDecorator m).hasCapability c.id = false ∧
    (loggingModelDecorator m).getCapability c.id = none ∧
    (loggingModelDecorator m).executeCapability c.id input config =
      (.error (capabilityNotFoundMsg c.id m.id), []) := by
  have hhasw : (loggingModelDecorator m).hasCapability c.id = false := by
    unfold ModelProviderBase.hasCapability
    rw [loggingModelDecorator_capabilities m hwf, jsMapHas_map_keyed]
    exact hnotin
  refine ⟨loggingModelDecorator_id m, loggingModelDecorator_name m,
    loggingModelDecorator_description m, ?_, ?_, hhasw, ?_, ?_⟩
  · rw [loggingModelDecorator_capabilities m hwf]
    simp [jsMapKeys]
  · unfold ModelProviderBase.hasCapability ModelProviderBase.addCapability at *
    rw [jsMapSet_of_not_has _ hnotin, jsMapHas_append]
    simp [jsMapHas, List.find?]
  · unfold ModelProviderBase.getCapability
    exact jsMapGet_eq_none_of_not_has (by
      unfold ModelProviderBase.hasCapability at hhasw
      exact hhasw)
  · unfold ModelProviderBase.executeCapability
    rw [show jsMapGet (loggingModelDecorator m).capabilities c.id = none from
      jsMapGet_eq_none_of_not_has (by
        unfold ModelProviderBase.hasCapability at hhasw
        exact hhasw)]
    rw [loggingModelDecorator_id m]

/-- Witness for C7: the `"embedding"` capability added to the sample
provider after wrapping is invisible through the wrapper. -/
theorem loggingDecorator_snapshot_witness :
    WFProvider sampleProvider ∧
    sampleProvider.hasCapability lateCapability.id = false ∧
    ((loggingModelDecorator sampleProvider).id = sampleProvider.id ∧
     (loggingModelDecorator sampleProvider).name = sampleProvider.name ∧
     (loggingModelDecorator sampleProvider).description = sampleProvider.description ∧
     jsMapKeys (loggingModelDecorator sampleProvider).capabilities =
       jsMapKeys sampleProvider.capabilities ∧
     (sampleProvider.addCapability lateCapability).hasCapability lateCapability.id = true ∧
     (loggingModelDecorator sampleProvider).hasCapability lateCapability.id = false ∧
     (loggingModelDecorator sampleProvider).getCapability lateCapability.id = none ∧
     (loggingModelDecorator sampleProvider).executeCapability lateCapability.id "x" none =
       (.error (capabilityNotFoundMsg lateCapability.id sampleProvider.id), [])) :=
  ⟨⟨by decide, by decide⟩, by decide,
   loggingDecorator_snapshot sampleProvider ⟨by decide, by decide⟩
     lateCapability (by decide) "x" none⟩

/-! ## Helper lemmas: characterizations of the memory-service runs -/

theorem getOrCreateConversation_run {σ : Type} (P : MemoryProvider σ)
    (user platform : String) (s : σ) :
    MemoryService.getOrCreateConversation P user platform s =
      match P.getConversation (generateConversationId user platform) s with
      | (.ok _, s1) =>
        (.ok (generateConversationId user platform), s1,
         [.publish "memory.service.get_conversation.called",
          .getConversationCall (generateConversationId user platform)])
      | (.error _, s1) =>
        match P.createConversation (some (generateConversationId user platform)) s1 with
        | (.ok _, s2) =>
          (.ok (generateConversationId user platform), s2,
           [.publish "memory.service.get_conversation.called",
            .getConversationCall (generateConversationId user platform),
            .publish "memory.service.create_conversation.called",
            .createConversationCall (some (generateConversationId user platform))])
        | (.error e2, s2) =>
          (.error e2, s2,
           [.publish "memory.service.get_conversation.called",
            .getConversationCall (generateConversationId user platform),
            .publish "memory.service.create_conversation.called",
            .createConversationCall (some (generateConversationId user platform))]) := by
  rcases hg : P.getConversation (generateConversationId user platform) s with ⟨rg, s1⟩
  cases rg with
  | ok conv =>
    simp [MemoryService.getOrCreateConversation, MemoryService.getConversation,
      provGetConversation, publish, MemM.bind, MemM.tryCatch, MemM.pure, hg]
  | error e =>
    rcases hc : P.createConversation (some (generateConversationId user platform)) s1
      with ⟨rc, s2⟩
    cases rc with
    | ok x =>
      simp [MemoryService.getOrCreateConversation, MemoryService.getConversation,
        MemoryService.createConversation, provGetConversation, provCreateConversation,
        publish, MemM.bind, MemM.tryCatch, MemM.pure, hg, hc]
    | error e2 =>
      simp [MemoryService.getOrCreateConversation, MemoryService.getConversation,
        MemoryService.createConversation, provGetConversation, provCreateConversation,
        publish, MemM.bind, MemM.tryCatch, MemM.pure, hg, hc]

theorem getOrCreateConversation_ok_id {σ : Type} (P : MemoryProvider σ)
    (user platform : String) (s : σ) (i : String) (s1 : σ) (tg : List TraceEvent)
    (h : MemoryService.getOrCreateConversation P user platform s = (.ok i, s1, tg)) :
    i = generateConversationId user platform := by
  rw [getOrCreateConversation_run] at h
  rcases hg : P.getConversation (generateConversationId user platform) s with ⟨rg, sg⟩
  cases rg with
  | ok conv =>
    simp [hg] at h
    exact h.1.symm
  | error e =>
    rcases hc : P.createConversation (some (generateConversationId user platform)) sg
      with ⟨rc, sc⟩
    cases rc with
    | ok x =>
      simp [hg, hc] at h
      exact h.1.symm
    | error e2 =>
      simp [hg, hc] at h

theorem getOrCreateConversation_trace_noStores {σ : Type} (P : MemoryProvider σ)
    (user platform : String) (s : σ) :
    NoStoreWrites (MemoryService.getOrCreateConversation P user platform s).2.2 := by
  rw [getOrCreateConversation_run]
  rcases hg : P.getConversation (generateConversationId user platform) s with ⟨rg, s1⟩
  cases rg with
  | ok conv => simp [NoStoreWrites, TraceEvent.isStoreWrite]
  | error e =>
    rcases hc : P.createConversation (some (generateConversationId user platform)) s1
      with ⟨rc, s2⟩
    cases rc <;> simp [hc, NoStoreWrites, TraceEvent.isStoreWrite]

theorem storeAssistantInteraction_run {σ : Type} (P : MemoryProvider σ)
    (user platform response : String) (contextChain : List BaseContextItem)
    (now : Nat) (s : σ) :
    MemoryService.storeAssistantInteraction P user platform response contextChain now s =
      match MemoryService.getOrCreateConversation P user platform s with
      | (.error e, s1, tg) =>
        (.error e, s1,
         .publish "memory.assistant.interaction.storing" ::
           (tg ++ [.publish "memory.assistant.interaction.failed"]))
      | (.ok cid, s1, tg) =>
        match chainFirstId contextChain with
        | none =>
          (.error missingReferenceErrorMsg, s1,
           .publish "memory.assistant.interaction.storing" ::
             (tg ++
              [.publish "memory.conversation.retrieved",
               .publish "memory.context.chain.processing",
               .publish "memory.assistant.interaction.failed"]))
        | some fid =>
          match P.storeContext
              { id := cid ++ "-context-" ++ toString now, type := "context_chain",
                content := serializeChain contextChain, timestamp := now } cid s1 with
          | (.error e, s2) =>
            (.error e, s2,
             .publish "memory.assistant.interaction.storing" ::
               (tg ++
                [.publish "memory.conversation.retrieved",
                 .publish "memory.context.chain.processing",
                 .publish "memory.message.id.extracted",
                 .publish "memory.service.store_context.called",
                 .storeContextCall
                   { id := cid ++ "-context-" ++ toString now, type := "context_chain",
                     content := serializeChain contextChain, timestamp := now } cid,
                 .publish "memory.assistant.interaction.failed"]))
          | (.ok _, s2) =>
            match P.storeMessage
                { id := cid ++ "-assistant-" ++ toString now, role := "assistant",
                  content := response, timestamp := now,
                  contextId := some (cid ++ "-context-" ++ toString now),
                  user_message_id := some fid } cid s2 with
            | (.error e, s3) =>
              (.error e, s3,
               .publish "memory.assistant.interaction.storing" ::
                 (tg ++
                  [.publish "memory.conversation.retrieved",
                   .publish "memory.context.chain.processing",
                   .publish "memory.message.id.extracted",
                   .publish "memory.service.store_context.called",
                   .storeContextCall
                     { id := cid ++ "-context-" ++ toString now, type := "context_chain",
                       content := serializeChain contextChain, timestamp := now } cid,
                   .publish "memory.context.stored",
                   .publish "memory.service.store_message.called",
                   .storeMessageCall
                     { id := cid ++ "-assistant-" ++ toString now, role := "assistant",
                       content := response, timestamp := now,
                       contextId := some (cid ++ "-context-" ++ toString now),
                       user_message_id := some fid } cid,
                   .publish "memory.assistant.interaction.failed"]))
            | (.ok _, s3) =>
              (.ok (), s3,
               .publish "memory.assistant.interaction.storing" ::
                 (tg ++
                  [.publish "memory.conversation.retrieved",
                   .publish "memory.context.chain.processing",
                   .publish "memory.message.id.extracted",
                   .publish "memory.service.store_context.called",
                   .storeContextCall
                     { id := cid ++ "-context-" ++ toString now, type := "context_chain",
                       content := serializeChain contextChain, timestamp := now } cid,
                   .publish "memory.context.stored",
                   .publish "memory.service.store_message.called",
                   .storeMessageCall
                     { id := cid ++ "-assistant-" ++ toString now, role := "assistant",
                       content := response, timestamp := now,
                       contextId := some (cid ++ "-context-" ++ toString now),
                       user_message_id := some fid } cid,
                   .publish "memory.assistant.interaction.completed"])) := by
  rcases hg : MemoryService.getOrCreateConversation P user platform s with ⟨rg, s1, tg⟩
  cases rg with
  | error e =>
    simp [MemoryService.storeAssistantInteraction, publish, MemM.bind, MemM.tryCatch,
      MemM.pure, MemM.throwErr, hg]
  | ok cid =>
    cases hch : chainFirstId contextChain with
    | none =>
      simp [MemoryService.storeAssistantInteraction, publish, MemM.bind, MemM.tryCatch,
        MemM.pure, MemM.throwErr, hg, hch]
    | some fid =>
      rcases hsc : P.storeContext
          { id := cid ++ "-context-" ++ toString now, type := "context_chain",
            content := serializeChain contextChain, timestamp := now } cid s1
        with ⟨rsc, s2⟩
      cases rsc with
      | error e =>
        simp [MemoryService.storeAssistantInteraction, MemoryService.storeContext,
          provStoreContext, publish, MemM.bind, MemM.tryCatch, MemM.pure,
          MemM.throwErr, hg, hch, hsc]
      | ok _ =>
        rcases hsm : P.storeMessage
            { id := cid ++ "-assistant-" ++ toString now, role := "assistant",
              content := response, timestamp := now,
              contextId := some (cid ++ "-context-" ++ toString now),
              user_message_id := some fid } cid s2
          with ⟨rsm, s3⟩
        cases rsm with
        | error e =>
          simp [MemoryService.storeAssistantInteraction, MemoryService.storeContext,
            MemoryService.storeMessage, provStoreContext, provStoreMessage, publish,
            MemM.bind, MemM.tryCatch, MemM.pure, MemM.throwErr, hg, hch, hsc, hsm]
        | ok _ =>
          simp [MemoryService.storeAssistantInteraction, MemoryService.storeContext,
            MemoryService.storeMessage, provStoreContext, provStoreMessage, publish,
            MemM.bind, MemM.tryCatch, MemM.pure, MemM.throwErr, hg, hch, hsc, hsm]

theorem noStoreWrites_cons {e : TraceEvent} {t : List TraceEvent}
    (he : e.isStoreWrite = false) (h : NoStoreWrites t) : NoStoreWrites (e :: t) := by
  intro x hx
  rcases List.mem_cons.mp hx with rfl | hx
  · exact he
  · exact h x hx

theorem noStoreWrites_append {t1 t2 : List TraceEvent}
    (h1 : NoStoreWrites t1) (h2 : NoStoreWrites t2) : NoStoreWrites (t1 ++ t2) := by
  intro x hx
  rcases List.mem_append.mp hx with hx | hx
  · exact h1 x hx
  · exact h2 x hx

/-! ## C1: invalid processing chain fails and persists nothing -/

/-- C1.  When the processing chain is empty or its first element lacks an id,
`storeAssistantInteraction` fails (the run's result is an error), no
`storeContext` and no `storeMessage` call reaches the persistence
collaborator, and — whenever the preceding conversation-resolution step
succeeds — the error is the `MissingReferenceError` message. -/
theorem storeAssistantInteraction_missing_reference {σ : Type} (P : MemoryProvider σ)
    (s : σ) (user platform response : String) (contextChain : List BaseContextItem)
    (now : Nat) (hchain : chainFirstId contextChain = none) :
    (∃ e, (MemoryService.storeAssistantInteraction P user platform response
      contextChain now s).1 = .error e) ∧
    NoStoreWrites (MemoryService.storeAssistantInteraction P user platform response
      contextChain now s).2.2 ∧
    (∀ i s1 tg,
      MemoryService.getOrCreateConversation P user platform s = (.ok i, s1, tg) →
      (MemoryService.storeAssistantInteraction P user platform response
        contextChain now s).1 = .error missingReferenceErrorMsg) := by
  have hrun := storeAssistantInteraction_run P user platform response contextChain now s
  rcases hg : MemoryService.getOrCreateConversation P user platform s with ⟨rg, s1, tg⟩
  have hnstg : NoStoreWrites tg := by
    have hns := getOrCreateConversation_trace_noStores P user platform s
    rw [hg] at hns
    exact hns
  rw [hg] at hrun
  cases rg with
  | error e =>
    have hrun2 : MemoryService.storeAssistantInteraction P user platform response
        contextChain now s =
        (.error e, s1,
         .publish "memory.assistant.interaction.storing" ::
           (tg ++ [.publish "memory.assistant.interaction.failed"])) := hrun
    refine ⟨⟨e, by rw [hrun2]⟩, ?_, ?_⟩
    · rw [hrun2]
      exact noStoreWrites_cons rfl (noStoreWrites_append hnstg
        (by simp [NoStoreWrites, TraceEvent.isStoreWrite]))
    · intro i s1x tgx h
      simp at h
  | ok cid =>
    rw [hchain] at hrun
    have hrun2 : MemoryService.storeAssistantInteraction P user platform response
        contextChain now s =
        (.error missingReferenceErrorMsg, s1,
         .publish "memory.assistant.interaction.storing" ::
           (tg ++
            [.publish "memory.conversation.retrieved",
             .publish "memory.context.chain.processing",
             .publish "memory.assistant.interaction.failed"])) := hrun
    refine ⟨⟨missingReferenceErrorMsg, by rw [hrun2]⟩, ?_, ?_⟩
    · rw [hrun2]
      exact noStoreWrites_cons rfl (noStoreWrites_append hnstg
        (by simp [NoStoreWrites, TraceEvent.isStoreWrite]))
    · intro i s1x tgx h
      rw [hrun2]

/-- Witness for C1: the empty chain against the reference collaborator. -/
theorem storeAssistantInteraction_missing_reference_witness :
    chainFirstId [] = none ∧
    ((∃ e, (MemoryService.storeAssistantInteraction inMemoryProvider "alice" "web"
      "hello" [] 2000 store0).1 = .error e) ∧
     NoStoreWrites (MemoryService.storeAssistantInteraction inMemoryProvider "alice"
      "web" "hello" [] 2000 store0).2.2 ∧
     (∀ i s1 tg,
       MemoryService.getOrCreateConversation inMemoryProvider "alice" "web" store0 =
         (.ok i, s1, tg) →
       (MemoryService.storeAssistantInteraction inMemoryProvider "alice" "web"
         "hello" [] 2000 store0).1 = .error missingReferenceErrorMsg)) :=
  ⟨rfl, storeAssistantInteraction_missing_reference inMemoryProvider store0
    "alice" "web" "hello" [] 2000 rfl⟩

/-! ## C2: context written before message, with matching back-reference -/

/-- C2.  On every successful `storeAssistantInteraction` run, a context write
reaches the persistence collaborator strictly before the assistant message
write, both on the same conversation id, and the stored message's
`contextId` equals the stored context's id. -/
theorem storeAssistantInteraction_context_before_message {σ : Type}
    (P : MemoryProvider σ) (s : σ) (user platform response : String)
    (contextChain : List BaseContextItem) (now : Nat)
    (hok : (MemoryService.storeAssistantInteraction P user platform response
      contextChain now s).1 = .ok ()) :
    ContextBeforeMessage (MemoryService.storeAssistantInteraction P user platform
      response contextChain now s).2.2 := by
  have hrun := storeAssistantInteraction_run P user platform response contextChain now s
  rcases hg : MemoryService.getOrCreateConversation P user platform s with ⟨rg, s1, tg⟩
  rw [hg] at hrun
  cases rg with
  | error e =>
    rw [hrun] at hok
    simp at hok
  | ok cid =>
    cases hch : chainFirstId contextChain with
    | none =>
      rw [hch] at hrun
      rw [hrun] at hok
      simp at hok
    | some fid =>
      rw [hch] at hrun
      rcases hsc : P.storeContext
          { id := cid ++ "-context-" ++ toString now, type := "context_chain",
            content := serializeChain contextChain, timestamp := now } cid s1
        with ⟨rsc, s2⟩
      simp only [hsc] at hrun
      cases rsc with
      | error e =>
        rw [hrun] at hok
        simp at hok
      | ok _ =>
        rcases hsm : P.storeMessage
            { id := cid ++ "-assistant-" ++ toString now, role := "assistant",
              content := response, timestamp := now,
              contextId := some (cid ++ "-context-" ++ toString now),
              user_message_id := some fid } cid s2
          with ⟨rsm, s3⟩
        simp only [hsm] at hrun
        cases rsm with
        | error e =>
          rw [hrun] at hok
          simp at hok
        | ok _ =>
          rw [hrun]
          refine ⟨cid,
            { id := cid ++ "-context-" ++ toString now, type := "context_chain",
              content := serializeChain contextChain, timestamp := now },
            { id := cid ++ "-assistant-" ++ toString now, role := "assistant",
              content := response, timestamp := now,
              contextId := some (cid ++ "-context-" ++ toString now),
              user_message_id := some fid },
            .publish "memory.assistant.interaction.storing" ::
              (tg ++
               [.publish "memory.conversation.retrieved",
                .publish "memory.context.chain.processing",
                .publish "memory.message.id.extracted",
                .publish "memory.service.store_context.called"]),
            [.publish "memory.context.stored",
             .publish "memory.service.store_message.called"],
            [.publish "memory.assistant.interaction.completed"], ?_, rfl⟩
          simp

/-- Witness for C2: the sample chain against the reference collaborator. -/
theorem storeAssistantInteraction_context_before_message_witness :
    (MemoryService.storeAssistantInteraction inMemoryProvider "alice" "web" "hello"
      sampleChain 2000 store0).1 = .ok () ∧
    ContextBeforeMessage (MemoryService.storeAssistantInteraction inMemoryProvider
      "alice" "web" "hello" sampleChain 2000 store0).2.2 :=
  ⟨rfl, storeAssistantInteraction_context_before_message inMemoryProvider store0
    "alice" "web" "hello" sampleChain 2000 rfl⟩

/-! ## C3: exact record contents of a successful store -/

/-- C3.  On every successful `storeAssistantInteraction` run whose chain's
first element has id `fid`, the collaborator receives — context first — the
exact context record (id `conversationId-context-timestamp`, type
`context_chain`, content the serialization of the whole chain) and the exact
assistant message (id `conversationId-assistant-timestamp`, role
`assistant`, `contextId` the context's id, `user_message_id` the first chain
element's id), with the same timestamp in both ids. -/
theorem storeAssistantInteraction_record_contents {σ : Type}
    (P : MemoryProvider σ) (s : σ) (user platform response : String)
    (contextChain : List BaseContextItem) (now : Nat) (fid : String)
    (hchain : chainFirstId contextChain = some fid)
    (hok : (MemoryService.storeAssistantInteraction P user platform response
      contextChain now s).1 = .ok ()) :
    StoresExactRecords user platform response contextChain now fid
      (MemoryService.storeAssistantInteraction P user platform response
        contextChain now s).2.2 := by
  have hrun := storeAssistantInteraction_run P user platform response contextChain now s
  rcases hg : MemoryService.getOrCreateConversation P user platform s with ⟨rg, s1, tg⟩
  rw [hg] at hrun
  cases rg with
  | error e =>
    rw [hrun] at hok
    simp at hok
  | ok cid =>
    have hcid : cid = generateConversationId user platform :=
      getOrCreateConversation_ok_id P user platform s cid s1 tg hg
    subst hcid
    rw [hchain] at hrun
    rcases hsc : P.storeContext
        { id := generateConversationId user platform ++ "-context-" ++ toString now,
          type := "context_chain", content := serializeChain contextChain,
          timestamp := now } (generateConversationId user platform) s1
      with ⟨rsc, s2⟩
    simp only [hsc] at hrun
    cases rsc with
    | error e =>
      rw [hrun] at hok
      simp at hok
    | ok _ =>
      rcases hsm : P.storeMessage
          { id := generateConversationId user platform ++ "-assistant-" ++ toString now,
            role := "assistant", content := response, timestamp := now,
            contextId := some (generateConversationId user platform ++ "-context-" ++
              toString now),
            user_message_id := some fid } (generateConversationId user platform) s2
        with ⟨rsm, s3⟩
      simp only [hsm] at hrun
      cases rsm with
      | error e =>
        rw [hrun] at hok
        simp at hok
      | ok _ =>
        rw [hrun]
        refine ⟨.publish "memory.assistant.interaction.storing" ::
            (tg ++
             [.publish "memory.conversation.retrieved",
              .publish "memory.context.chain.processing",
              .publish "memory.message.id.extracted",
              .publish "memory.service.store_context.called"]),
          [.publish "memory.context.stored",
           .publish "memory.service.store_message.called"],
          [.publish "memory.assistant.interaction.completed"], ?_⟩
        simp [contextRecord, assistantMessageRecord]

/-- Witness for C3: the sample chain at timestamp 2000 against the reference
collaborator. -/
theorem storeAssistantInteraction_record_contents_witness :
    chainFirstId sampleChain = some "web-1000" ∧
    (MemoryService.storeAssistantInteraction inMemoryProvider "alice" "web" "hello"
      sampleChain 2000 store0).1 = .ok () ∧
    StoresExactRecords "alice" "web" "hello" sampleChain 2000 "web-1000"
      (MemoryService.storeAssistantInteraction inMemoryProvider "alice" "web"
        "hello" sampleChain 2000 store0).2.2 :=
  ⟨rfl, rfl, storeAssistantInteraction_record_contents inMemoryProvider store0
    "alice" "web" "hello" sampleChain 2000 "web-1000" rfl rfl⟩

/-! ## C10: conversation resolution runs before chain validation -/

/-- C10.  When the chain is invalid but the conversation does not yet exist
(the fetch fails) and creation succeeds, the `createConversation` write
reaches the persistence collaborator even though the operation then fails
with the `MissingReferenceError` message and persists neither a context nor
a message. -/
theorem storeAssistantInteraction_creates_conversation_before_validation
    {σ : Type} (P : MemoryProvider σ) (s : σ) (user platform response : String)
    (contextChain : List BaseContextItem) (now : Nat)
    (hchain : chainFirstId contextChain = none)
    (e : String) (s1 : σ)
    (hfetch : P.getConversation (generateConversationId user platform) s =
      (.error e, s1))
    (x : String) (s2 : σ)
    (hcreate : P.createConversation (some (generateConversationId user platform)) s1 =
      (.ok x, s2)) :
    (MemoryService.storeAssistantInteraction P user platform response
      contextChain now s).1 = .error missingReferenceErrorMsg ∧
    TraceEvent.createConversationCall (some (generateConversationId user platform)) ∈
      (MemoryService.storeAssistantInteraction P user platform response
        contextChain now s).2.2 ∧
    NoStoreWrites (MemoryService.storeAssistantInteraction P user platform response
      contextChain now s).2.2 := by
  have hg : MemoryService.getOrCreateConversation P user platform s =
      (.ok (generateConversationId user platform), s2,
       [.publish "memory.service.get_conversation.called",
        .getConversationCall (generateConversationId user platform),
        .publish "memory.service.create_conversation.called",
        .createConversationCall (some (generateConversationId user platform))]) := by
    rw [getOrCreateConversation_run]
    simp [hfetch, hcreate]
  have hrun := storeAssistantInteraction_run P user platform response contextChain now s
  rw [hg, hchain] at hrun
  have hrun2 : MemoryService.storeAssistantInteraction P user platform response
      contextChain now s =
      (.error missingReferenceErrorMsg, s2,
       .publish "memory.assistant.interaction.storing" ::
         ([.publish "memory.service.get_conversation.called",
           .getConversationCall (generateConversationId user platform),
           .publish "memory.service.create_conversation.called",
           .createConversationCall (some (generateConversationId user platform))] ++
          [.publish "memory.conversation.retrieved",
           .publish "memory.context.chain.processing",
           .publish "memory.assistant.interaction.failed"])) := hrun
  rw [hrun2]
  refine ⟨rfl, ?_, ?_⟩
  · simp
  · simp [NoStoreWrites, TraceEvent.isStoreWrite]

/-- Witness for C10: empty chain, empty store — the conversation is created
as a side effect, then the operation fails without storing records. -/
theorem storeAssistantInteraction_creates_conversation_witness :
    chainFirstId [] = none ∧
    inMemoryProvider.getConversation "web-alice" store0 =
      (.error "Conversation not found: web-alice", store0) ∧
    inMemoryProvider.createConversation (some "web-alice") store0 =
      (.ok "web-alice", storeWithAlice) ∧
    ((MemoryService.storeAssistantInteraction inMemoryProvider "alice" "web"
        "hello" [] 2000 store0).1 = .error missingReferenceErrorMsg ∧
     TraceEvent.createConversationCall (some "web-alice") ∈
       (MemoryService.storeAssistantInteraction inMemoryProvider "alice" "web"
         "hello" [] 2000 store0).2.2 ∧
     NoStoreWrites (MemoryService.storeAssistantInteraction inMemoryProvider
       "alice" "web" "hello" [] 2000 store0).2.2) :=
  ⟨rfl, rfl, rfl,
   storeAssistantInteraction_creates_conversation_before_validation
     inMemoryProvider store0 "alice" "web" "hello" [] 2000 rfl
     "Conversation not found: web-alice" store0 rfl "web-alice" storeWithAlice rfl⟩

/-! ## C4: deterministic conversation identity and lazy creation -/

theorem goodStore_inMemory (cid : String) : GoodStore inMemoryProvider cid := by
  refine ⟨?_, ?_, ?_⟩
  · intro s c s2 h
    simp only [inMemoryProvider] at h
    by_cases hmem : cid ∈ s.conversations
    · simp [hmem] at h
      obtain ⟨h1, h2⟩ := h
      simp [← h1]
    · simp [hmem] at h
  · intro s c s2 h
    simp only [inMemoryProvider] at h
    by_cases hmem : cid ∈ s.conversations
    · simp [hmem] at h
      obtain ⟨h1, h2⟩ := h
      refine ⟨{ id := cid }, s2, ?_⟩
      simp [inMemoryProvider, ← h2, hmem]
    · simp [hmem] at h
  · intro s x s2 h
    simp only [inMemoryProvider] at h
    simp at h
    obtain ⟨h1, h2⟩ := h
    refine ⟨{ id := cid }, s2, ?_⟩
    simp [inMemoryProvider, ← h2]

/-- C4.  With a well-behaved persistence collaborator,
`getOrCreateConversation` satisfies `GetOrCreateSpec`: the returned id is
always the deterministic `platform + "-" + user`; a successful fetch returns
the fetched conversation's id with no create call; a not-found fetch issues
a create call with that id and, when creation succeeds, returns it; two
sequential invocations return the identical id with at most one create call
in total when the first succeeds. -/
theorem getOrCreateConversation_deterministic {σ : Type} (P : MemoryProvider σ)
    (s : σ) (user platform : String)
    (hgood : GoodStore P (generateConversationId user platform)) :
    GetOrCreateSpec P s user platform := by
  obtain ⟨hid, hstable, hcg⟩ := hgood
  rcases hg : P.getConversation (generateConversationId user platform) s with ⟨rg, s1⟩
  cases rg with
  | ok conv =>
    have hrun : MemoryService.getOrCreateConversation P user platform s =
        (.ok (generateConversationId user platform), s1,
         [.publish "memory.service.get_conversation.called",
          .getConversationCall (generateConversationId user platform)]) := by
      rw [getOrCreateConversation_run]
      simp [hg]
    obtain ⟨c2, s3, hg2⟩ := hstable s conv s1 hg
    have hrun2 : MemoryService.getOrCreateConversation P user platform s1 =
        (.ok (generateConversationId user platform), s3,
         [.publish "memory.service.get_conversation.called",
          .getConversationCall (generateConversationId user platform)]) := by
      rw [getOrCreateConversation_run]
      simp [hg2]
    refine ⟨?_, ?_, ?_, ?_⟩
    · intro i s1x tgx h
      rw [hrun] at h
      simp at h
      exact h.1.symm
    · intro c s1x h
      have hcid : c.id = generateConversationId user platform := hid s c s1x h
      constructor
      · rw [hrun, hcid]
      · rw [hrun]
        simp [createCallCount, TraceEvent.isCreateCall]
    · intro e s1x h
      rw [hg] at h
      simp at h
    · intro i hoki
      have hi : i = generateConversationId user platform := by
        rw [hrun] at hoki
        simp at hoki
        exact hoki.symm
      subst hi
      constructor
      · rw [hrun, hrun2]
      · rw [hrun, hrun2]
        simp [createCallCount, TraceEvent.isCreateCall]
  | error e =>
    rcases hc : P.createConversation (some (generateConversationId user platform)) s1
      with ⟨rc, s2⟩
    cases rc with
    | ok x =>
      have hrun : MemoryService.getOrCreateConversation P user platform s =
          (.ok (generateConversationId user platform), s2,
           [.publish "memory.service.get_conversation.called",
            .getConversationCall (generateConversationId user platform),
            .publish "memory.service.create_conversation.called",
            .createConversationCall (some (generateConversationId user platform))]) := by
        rw [getOrCreateConversation_run]
        simp [hg, hc]
      obtain ⟨c2, s3, hg2⟩ := hcg s1 x s2 hc
      have hrun2 : MemoryService.getOrCreateConversation P user platform s2 =
          (.ok (generateConversationId user platform), s3,
           [.publish "memory.service.get_conversation.called",
            .getConversationCall (generateConversationId user platform)]) := by
        rw [getOrCreateConversation_run]
        simp [hg2]
      refine ⟨?_, ?_, ?_, ?_⟩
      · intro i s1x tgx h
        rw [hrun] at h
        simp at h
        exact h.1.symm
      · intro c s1x h
        rw [hg] at h
        simp at h
      · intro e2 s1x h
        constructor
        · rw [hrun]
          simp
        · intro x2 s2x h2
          rw [hrun]
      · intro i hoki
        have hi : i = generateConversationId user platform := by
          rw [hrun] at hoki
          simp at hoki
          exact hoki.symm
        subst hi
        constructor
        · rw [hrun, hrun2]
        · rw [hrun, hrun2]
          simp [createCallCount, TraceEvent.isCreateCall]
    | error e2 =>
      have hrun : MemoryService.getOrCreateConversation P user platform s =
          (.error e2, s2,
           [.publish "memory.service.get_conversation.called",
            .getConversationCall (generateConversationId user platform),
            .publish "memory.service.create_conversation.called",
            .createConversationCall (some (generateConversationId user platform))]) := by
        rw [getOrCreateConversation_run]
        simp [hg, hc]
      refine ⟨?_, ?_, ?_, ?_⟩
      · intro i s1x tgx h
        rw [hrun] at h
        simp at h
      · intro c s1x h
        rw [hg] at h
        simp at h
      · intro e3 s1x h
        constructor
        · rw [hrun]
          simp
        · intro x2 s2x h2
          have hs1 : s1x = s1 := by
            rw [hg] at h
            simp at h
            exact h.2.symm
          rw [hs1] at h2
          rw [hc] at h2
          simp at h2
      · intro i hoki
        rw [hrun] at hoki
        simp at hoki

/-- Witness for C4: the reference collaborator starting from the empty
store for the pair `("alice", "web")`. -/
theorem getOrCreateConversation_deterministic_witness :
    GoodStore inMemoryProvider (generateConversationId "alice" "web") ∧
    GetOrCreateSpec inMemoryProvider store0 "alice" "web" :=
  ⟨goodStore_inMemory (generateConversationId "alice" "web"),
   getOrCreateConversation_deterministic inMemoryProvider store0 "alice" "web"
     (goodStore_inMemory (generateConversationId "alice" "web"))⟩

/-! ## C9: fail-soft bounded history read -/

theorem getRecentConversationHistory_run {σ : Type} (P : MemoryProvider σ)
    (user platform : String) (limit : Nat) (s : σ) :
    MemoryService.getRecentConversationHistory P user platform limit s =
      match P.getMessages
          { conversationId := generateConversationId user platform,
            limit := some limit } s with
      | (.ok messages, s1) =>
        (.ok (messages.map fun m =>
          { role := m.role, content := m.content, timestamp := m.timestamp }), s1,
         [.publish "memory.service.get_messages.called",
          .getMessagesCall
            { conversationId := generateConversationId user platform,
              limit := some limit }])
      | (.error _, s1) =>
        (.ok [], s1,
         [.publish "memory.service.get_messages.called",
          .getMessagesCall
            { conversationId := generateConversationId user platform,
              limit := some limit },
          .publish "memory.conversation.history.failed"]) := by
  rcases hm : P.getMessages
      { conversationId := generateConversationId user platform,
        limit := some limit } s with ⟨rm, s1⟩
  cases rm with
  | ok messages =>
    simp [MemoryService.getRecentConversationHistory, MemoryService.getMessages,
      provGetMessages, publish, MemM.bind, MemM.tryCatch, MemM.pure, hm]
  | error e =>
    simp [MemoryService.getRecentConversationHistory, MemoryService.getMessages,
      provGetMessages, publish, MemM.bind, MemM.tryCatch, MemM.pure, hm]

/-- C9.  `getRecentConversationHistory` never raises: its run result is
always a plain `.ok` sequence.  When the persistence collaborator's read
fails it logs the failure (the `memory.conversation.history.failed` event is
in the run's trace) and returns the empty sequence; when the read succeeds
it returns the fetched messages mapped to `{role, content, timestamp}`
triples; and the call with the `limit` parameter omitted equals the call
with limit 100. -/
theorem getRecentConversationHistory_fail_soft {σ : Type} (P : MemoryProvider σ)
    (s : σ) (user platform : String) (limit : Nat) :
    (∃ l, (MemoryService.getRecentConversationHistory P user platform limit s).1 =
      .ok l) ∧
    (∀ e s1, P.getMessages
        { conversationId := generateConversationId user platform,
          limit := some limit } s = (.error e, s1) →
      (MemoryService.getRecentConversationHistory P user platform limit s).1 =
        .ok [] ∧
      TraceEvent.publish "memory.conversation.history.failed" ∈
        (MemoryService.getRecentConversationHistory P user platform limit s).2.2) ∧
    (∀ messages s1, P.getMessages
        { conversationId := generateConversationId user platform,
          limit := some limit } s = (.ok messages, s1) →
      (MemoryService.getRecentConversationHistory P user platform limit s).1 =
        .ok (messages.map fun m =>
          { role := m.role, content := m.content, timestamp := m.timestamp })) ∧
    MemoryService.getRecentConversationHistoryDefault P user platform s =
      MemoryService.getRecentConversationHistory P user platform 100 s := by
  have hrun := getRecentConversationHistory_run P user platform limit s
  rcases hm : P.getMessages
      { conversationId := generateConversationId user platform,
        limit := some limit } s with ⟨rm, s1⟩
  rw [hm] at hrun
  cases rm with
  | ok messages =>
    have hrun2 : MemoryService.getRecentConversationHistory P user platform limit s =
        (.ok (messages.map fun m =>
          { role := m.role, content := m.content, timestamp := m.timestamp }), s1,
         [.publish "memory.service.get_messages.called",
          .getMessagesCall
            { conversationId := generateConversationId user platform,
              limit := some limit }]) := hrun
    refine ⟨⟨_, by rw [hrun2]⟩, ?_, ?_, rfl⟩
    · intro e s1x h
      simp at h
    · intro messages2 s1x h
      simp at h
      rw [hrun2, h.1]
  | error e =>
    have hrun2 : MemoryService.getRecentConversationHistory P user platform limit s =
        (.ok [], s1,
         [.publish "memory.service.get_messages.called",
          .getMessagesCall
            { conversationId := generateConversationId user platform,
              limit := some limit },
          .publish "memory.conversation.history.failed"]) := hrun
    refine ⟨⟨[], by rw [hrun2]⟩, ?_, ?_, rfl⟩
    · intro e2 s1x h
      constructor
      · rw [hrun2]
      · rw [hrun2]
        simp
    · intro messages2 s1x h
      simp at h

/-- Witness for C9: a collaborator whose read fails yields the empty
sequence and the failure log event in the trace. -/
theorem getRecentConversationHistory_fail_soft_witness :
    (failingProvider "db is down").getMessages
      { conversationId := generateConversationId "alice" "web", limit := some 5 } () =
      (.error "db is down", ()) ∧
    ((MemoryService.getRecentConversationHistory (failingProvider "db is down")
        "alice" "web" 5 ()).1 = .ok [] ∧
     TraceEvent.publish "memory.conversation.history.failed" ∈
       (MemoryService.getRecentConversationHistory (failingProvider "db is down")
         "alice" "web" 5 ()).2.2) :=
  ⟨rfl,
   (getRecentConversationHistory_fail_soft (failingProvider "db is down") ()
     "alice" "web" 5).2.1 "db is down" () rfl⟩

end MaiarSpec
